import Mathlib

/-!
Verification development for the PoolX object pool (Go).

The Go source is shallowly embedded: machine integers become `Nat`/`Int`
with explicit `% 2^64` where wrap-around matters, `float64` configuration
factors become exact fractions with truncating integer division, channels
and the ring buffer become capacity-bounded lists, and the pool's mutable
state becomes explicit state passing.  Functions whose bodies live in the
repository sources (src/pool/helpers.go, src/unnamed/part_001) are
translated verbatim; the few collaborators that are not part of the
sources (the `grow` dispatch and the external ring-buffer primitives) are
modelled from the specification and marked as such.
-/

namespace PoolX

/-- Modulus of Go's `uint64`. -/
def U64 : ℕ := 2 ^ 64

/-- Go conversion `int(u)` of a `uint64` value (two's complement reinterpretation). -/
def intOfU64 (n : ℕ) : ℤ := if n < 2 ^ 63 then (n : ℤ) else (n : ℤ) - 2 ^ 64

/-- Go conversion `uint64(i)` of an `int` value (reduction modulo `2^64`). -/
def u64ofInt (i : ℤ) : ℕ := (i % (2 ^ 64 : ℤ)).toNat

/-- Configuration factors are `float64` values in Go; the embedding
represents each as an exact fraction `num / den` with positive
denominator. -/
structure GoFloat where
  num : ℤ
  den : ℕ
deriving DecidableEq, Repr

/-- Go's conversion to an integer of the product `float64(n) * f`:
exact rational truncation toward zero. -/
def truncMulInt (n : ℕ) (f : GoFloat) : ℤ := Int.tdiv ((n : ℤ) * f.num) (f.den : ℤ)

/-- Go `uint64(float64(n) * f)`; every use in the source is on a
non-negative product, where the conversion is the floor. -/
def truncMulU64 (n : ℕ) (f : GoFloat) : ℕ := (truncMulInt n f).toNat

/-- The Go expression `1.0 - f` as an exact fraction. -/
def GoFloat.oneMinus (f : GoFloat) : GoFloat := ⟨(f.den : ℤ) - f.num, f.den⟩

/-- A factor is positive (the builder's `must be greater than 0`). -/
def GoFloat.pos (f : GoFloat) : Prop := 0 < f.num ∧ 0 < f.den

/-- Embeds src/pool/helpers.go `maxUint64`. -/
def maxUint64 (a b : ℕ) : ℕ := if a > b then a else b

/-- Embeds the growth configuration (`growthParameters`): threshold factor for
the exponential-to-fixed switch, the exponential growth percentage, and the
fixed growth factor. -/
structure GrowthParameters where
  exponentialThresholdFactor : GoFloat
  growthPercent : GoFloat
  fixedGrowthFactor : GoFloat
deriving DecidableEq, Repr

/-- Embeds the shrink configuration fields used by the claims
(`shrinkParameters` in src/pool). Durations are modelled as natural
numbers of nanoseconds. -/
structure ShrinkParameters where
  idleThreshold : ℕ
  minIdleBeforeShrink : ℤ
  shrinkPercent : GoFloat
  minCapacity : ℤ
deriving DecidableEq, Repr

/-- Embeds the fast-path (L1) configuration fields used by the claims. -/
structure FastPathParameters where
  enableChannelGrowth : Bool
  growthEventsTrigger : ℤ
  shrinkEventsTrigger : ℤ
  growth : GrowthParameters
  shrink : ShrinkParameters
deriving DecidableEq, Repr

/-- Embeds the pool configuration fields used by the claims (`poolConfig`). -/
structure PoolConfig where
  initialCapacity : ℤ
  hardLimit : ℤ
  allocAmount : ℤ
  growth : GrowthParameters
  shrink : ShrinkParameters
  fastPath : FastPathParameters
deriving DecidableEq, Repr

/-- A bounded Go channel: capacity plus buffered items (front = oldest). -/
structure Channel (α : Type) where
  capacity : ℕ
  items : List α
deriving DecidableEq, Repr

/-- The external ring buffer (L2): capacity plus items in FIFO order. -/
structure RingBuffer (α : Type) where
  capacity : ℕ
  items : List α
deriving DecidableEq, Repr

/-- Embeds the atomic counters and capacity fields of `poolStats`
(src/pool generation of the stats struct).  All `uint64` counters are
naturals kept below `U64`; times are naturals. -/
structure Stats where
  objectsInUse : ℕ
  l1HitCount : ℕ
  blockedGets : ℕ
  totalGets : ℕ
  currentCapacity : ℕ
  currentL1Capacity : ℕ
  totalGrowthEvents : ℕ
  totalShrinkEvents : ℕ
  consecutiveShrinks : ℕ
  lastResizeAtGrowthNum : ℕ
  lastResizeAtShrinkNum : ℕ
  lastShrinkTime : ℕ
  lastGrowTime : ℕ
deriving DecidableEq, Repr

/-- The pool state visible to the embedded operations: the two tiers, the
growth-blocked latch and the statistics.  `cleaned` records every value
handed to the `cleaner` callback, in call order, so that cleaning claims
are observable. -/
structure PoolState (α : Type) where
  cacheL1 : Channel α
  pool : RingBuffer α
  isGrowthBlocked : Bool
  cleaned : List α
  stats : Stats
deriving DecidableEq, Repr

/-- Observable effect of one pass of the guarded CAS decrement loop used by
`releaseObj`, `reduceL1Hit` and `reduceBlockedGets` (src/pool/helpers.go):
a successful CAS replaces the observed value `old ≥ 1` by `old - 1`; an
observed zero leaves the counter untouched. -/
def casDecrement (old : ℕ) : ℕ := if old = 0 then 0 else old - 1

/-- Embeds src/pool/helpers.go `releaseObj`: clean the object, then
decrement `objectsInUse` through the guarded CAS loop. -/
def releaseObj {α : Type} (p : PoolState α) (obj : α) : PoolState α :=
  { p with
    cleaned := p.cleaned ++ [obj]
    stats := { p.stats with objectsInUse := casDecrement p.stats.objectsInUse } }

/-- Embeds src/pool/helpers.go `reduceL1Hit`. -/
def reduceL1Hit {α : Type} (p : PoolState α) : PoolState α :=
  { p with stats := { p.stats with l1HitCount := casDecrement p.stats.l1HitCount } }

/-- Embeds src/pool/helpers.go `reduceBlockedGets`. -/
def reduceBlockedGets {α : Type} (p : PoolState α) : PoolState α :=
  { p with stats := { p.stats with blockedGets := casDecrement p.stats.blockedGets } }

/-- Embeds src/pool/helpers.go `calculateNewPoolCapacity`.  The `uint64`
addition wraps modulo `2^64`; `uint64(float64(currentCap) * growthPercent)`
is the exact product truncated. -/
def calculateNewPoolCapacity (currentCap threshold fixedStep : ℕ)
    (cfg : GrowthParameters) : ℕ :=
  if currentCap < threshold then
    let growth := maxUint64 (truncMulU64 currentCap cfg.growthPercent) 1
    (currentCap + growth) % U64
  else
    (currentCap + fixedStep) % U64

/-- Embeds src/pool/helpers.go `growthWouldExceedHardLimit`. -/
def growthWouldExceedHardLimit (cfg : PoolConfig) (currentCapacity newCapacity : ℕ) : Bool :=
  decide (newCapacity > u64ofInt cfg.hardLimit) && decide (currentCapacity ≥ u64ofInt cfg.hardLimit)

/-- Embeds src/pool/helpers.go `needsToShrinkToHardLimit`. -/
def needsToShrinkToHardLimit (cfg : PoolConfig) (currentCap newCapacity : ℕ) : Bool :=
  decide (currentCap < u64ofInt cfg.hardLimit) && decide (newCapacity > u64ofInt cfg.hardLimit)

/-- Modelled from the spec: the growth dispatch `grow` is not among the
source files; per §4.2 the linear fixed step passed to
`calculateNewPoolCapacity` is `max(1, floor(current * big_growth_factor))`
(the source's `fixedGrowthFactor`). -/
def specFixedStep (currentCap : ℕ) (cfg : GrowthParameters) : ℕ :=
  maxUint64 (truncMulU64 currentCap cfg.fixedGrowthFactor) 1

/-- Modelled from the spec: the growth threshold is
`initial_capacity * threshold_factor` (§4.2), truncated to `uint64`. -/
def specThreshold (cfg : PoolConfig) : ℕ :=
  truncMulU64 (u64ofInt cfg.initialCapacity) cfg.growth.exponentialThresholdFactor

/-- Candidate capacity proposed by the growth controller before the
hard-limit policy is applied: the source's `calculateNewPoolCapacity`
applied to the spec-modelled threshold and fixed step. -/
def growCandidateCapacity (cfg : PoolConfig) (currentCap : ℕ) : ℕ :=
  calculateNewPoolCapacity currentCap (specThreshold cfg) (specFixedStep currentCap cfg.growth)
    cfg.growth

/-- Modelled from the spec: the growth controller `grow` is not among the
source files (only its helpers `calculateNewPoolCapacity`,
`growthWouldExceedHardLimit` and `needsToShrinkToHardLimit` are).  Per
§4.2: on `growthWouldExceedHardLimit` set the growth-blocked latch and
fail; on `needsToShrinkToHardLimit` clamp the new capacity to the hard
limit; otherwise keep it; then materialize `min(alloc_amount, delta)`
fresh values into L2, grow L2's underlying capacity to accommodate,
record the growth event and the grow time.  Returns the success flag and
the new state. -/
def grow {α : Type} (cfg : PoolConfig) (p : PoolState α) (now : ℕ) (newObj : α) :
    Bool × PoolState α :=
  let currentCap := p.stats.currentCapacity
  let candidate := growCandidateCapacity cfg currentCap
  if growthWouldExceedHardLimit cfg currentCap candidate then
    (false, { p with isGrowthBlocked := true })
  else
    let newCap := if needsToShrinkToHardLimit cfg currentCap candidate
      then u64ofInt cfg.hardLimit else candidate
    let delta := newCap - currentCap
    let amount := min (u64ofInt cfg.allocAmount) delta
    (true, { p with
      pool := { capacity := max p.pool.capacity newCap
                items := p.pool.items ++ List.replicate amount newObj }
      stats := { p.stats with
        currentCapacity := newCap
        totalGrowthEvents := (p.stats.totalGrowthEvents + 1) % U64
        lastGrowTime := now } })

/-- Embeds src/pool/helpers.go `tryL1ResizeIfTriggered`.  The drain loop
moves every buffered item of the old channel into the replacement, so the
item list is unchanged; only the capacity and the resize bookkeeping move. -/
def tryL1ResizeIfTriggered {α : Type} (cfg : PoolConfig) (p : PoolState α) : PoolState α :=
  if ¬ cfg.fastPath.enableChannelGrowth then p
  else
    let sinceLastResize :=
      (p.stats.totalGrowthEvents + U64 - p.stats.lastResizeAtGrowthNum) % U64
    if sinceLastResize < u64ofInt cfg.fastPath.growthEventsTrigger then p
    else
      let gcfg := cfg.fastPath.growth
      let currentCap := p.stats.currentL1Capacity
      let threshold := truncMulU64 currentCap gcfg.exponentialThresholdFactor
      let step := truncMulU64 currentCap gcfg.fixedGrowthFactor
      let newCap :=
        if currentCap < threshold then
          (currentCap + maxUint64 (truncMulU64 currentCap gcfg.growthPercent) 1) % U64
        else
          (currentCap + step) % U64
      { p with
        cacheL1 := { capacity := newCap, items := p.cacheL1.items }
        stats := { p.stats with
          currentL1Capacity := newCap
          lastResizeAtGrowthNum := p.stats.totalGrowthEvents } }

/-- Result of one `IndleCheck` tick: the updated idle-rounds counter and
the idleness shrink-permission flag. -/
structure IdleCheckResult where
  idles : ℤ
  permission : Bool
deriving DecidableEq, Repr

/-- Embeds src/pool/helpers.go `IndleCheck`.  `idleDuration` is the time
since the last `Get`; `idles` and the permission flag are the by-reference
arguments. -/
def IndleCheck (cfg : PoolConfig) (idleDuration : ℕ) (idles : ℤ) (permission : Bool) :
    IdleCheckResult :=
  if cfg.shrink.idleThreshold ≤ idleDuration then
    let idles2 := idles + 1
    { idles := idles2
      permission := if cfg.shrink.minIdleBeforeShrink ≤ idles2 then true else permission }
  else
    { idles := if 0 < idles then idles - 1 else idles, permission := permission }

/-- Reasons reported in `RefillResult.Reason` (src/pool constants).  The
`ringBufferError` case exists in the source but is unreachable in the
embedding because the modelled `GetN` never fails on `n ≤ length`. -/
inductive RefillReason
  | growthBlocked
  | growthFailed
  | ringBufferError
  | noItemsToMove
  | refillSucceeded
deriving DecidableEq, Repr

/-- Embeds the `RefillResult` struct returned by `refill`. -/
structure RefillResult where
  success : Bool := false
  growthNeeded : Bool := false
  growthBlockedFlag : Bool := false
  itemsMoved : ℕ := 0
  itemsFailed : ℕ := 0
  reason : RefillReason
deriving DecidableEq, Repr

/-- Modelled from the spec: the external ring buffer's `write` appends when
there is room and reports an error when full; the caller in `refill` only
logs that error, so a full buffer leaves the state unchanged. -/
def ringWrite {α : Type} (rb : RingBuffer α) (x : α) : RingBuffer α :=
  if rb.items.length < rb.capacity then { rb with items := rb.items ++ [x] } else rb

/-- Outcome of the send loop of `refill`: the two tiers after the loop and
the `ItemsMoved` / `ItemsFailed` tallies. -/
structure SendOutcome (α : Type) where
  l1 : Channel α
  l2 : RingBuffer α
  moved : ℕ
  failed : ℕ
deriving DecidableEq, Repr

/-- Embeds the send loop of src/pool/helpers.go `refill`: each item is sent
into L1 by a non-blocking channel send; on failure (L1 full) the item is
written back to L2. -/
def sendAll {α : Type} (l1 : Channel α) (l2 : RingBuffer α) : List α → SendOutcome α
  | [] => ⟨l1, l2, 0, 0⟩
  | x :: rest =>
    if l1.items.length < l1.capacity then
      let o := sendAll { l1 with items := l1.items ++ [x] } l2 rest
      { o with moved := o.moved + 1 }
    else
      let o := sendAll l1 (ringWrite l2 x) rest
      { o with failed := o.failed + 1 }

/-- Embeds the tail of src/pool/helpers.go `refill` after the growth stage:
`toMove = min(fillTarget, Length())`, a batch `GetN(toMove)` (modelled from
the spec: it removes the first `toMove` items, returns no items when
`toMove ≤ 0`, and its empty sentinel is not an error), then the send loop. -/
def refillMove {α : Type} (p : PoolState α) (fillTarget : ℤ) (growthNeeded : Bool) :
    RefillResult × PoolState α :=
  let currentObjsAvailable := (p.pool.items.length : ℤ)
  let toMove := min fillTarget currentObjsAvailable
  if toMove ≤ 0 then
    ({ reason := .noItemsToMove, growthNeeded := growthNeeded }, p)
  else
    let itemsTaken := p.pool.items.take toMove.toNat
    let remaining : RingBuffer α := { p.pool with items := p.pool.items.drop toMove.toNat }
    let o := sendAll p.cacheL1 remaining itemsTaken
    ({ success := true
       reason := .refillSucceeded
       growthNeeded := growthNeeded
       itemsMoved := o.moved
       itemsFailed := o.failed },
     { p with cacheL1 := o.l1, pool := o.l2 })

/-- Embeds src/pool/helpers.go `refill`.  When L2 is empty or holds fewer
items than the fill target, growth runs first: blocked growth returns a
`GrowthBlocked` result, failed growth a `GrowthFailed` result; otherwise
the move stage runs on the (possibly grown) state. -/
def refill {α : Type} (cfg : PoolConfig) (p : PoolState α) (fillTarget : ℤ) (now : ℕ)
    (newObj : α) : RefillResult × PoolState α :=
  let noObjsAvailable := p.pool.items.length = 0
  let biggerRequestThanAvailable := (p.pool.items.length : ℤ) < fillTarget
  if noObjsAvailable ∨ biggerRequestThanAvailable then
    if p.isGrowthBlocked then
      ({ reason := .growthBlocked, growthBlockedFlag := true }, p)
    else
      match grow cfg p now newObj with
      | (false, p') => ({ reason := .growthFailed }, p')
      | (true, p') => refillMove p' fillTarget true
  else
    refillMove p fillTarget false

/-- Embeds src/pool/helpers.go `shouldShrinkMainPool`: refuse when the
requested capacity is zero, the current capacity is at or below the
minimum, the request is not a reduction, or no objects are available in
either tier. -/
def shouldShrinkMainPool {α : Type} (cfg : PoolConfig) (p : PoolState α)
    (currentCap : ℕ) (newCap : ℤ) : Bool :=
  if newCap = 0 then false
  else if currentCap ≤ u64ofInt cfg.shrink.minCapacity then false
  else if intOfU64 currentCap ≤ newCap then false
  else if p.pool.items.length + p.cacheL1.items.length = 0 then false
  else true

/-- Embeds src/pool/helpers.go `adjustMainShrinkTarget`: raise the target
to the configured minimum and to the in-use count, and clear the
growth-blocked latch when the final target is below the hard limit.
Returns the target and the updated latch. -/
def adjustMainShrinkTarget (cfg : PoolConfig) (isGrowthBlocked : Bool) (newCap inUse : ℤ) :
    ℤ × Bool :=
  let n1 := if newCap < cfg.shrink.minCapacity then cfg.shrink.minCapacity else newCap
  let n2 := if n1 < inUse then inUse else n1
  let blocked := if n2 < cfg.hardLimit then false else isGrowthBlocked
  (n2, blocked)

/-- Embeds src/pool/helpers.go `performShrink`.  A non-positive room for
available objects aborts; otherwise the first `min(newCapacity − inUse,
Length())` items move into a fresh ring buffer of the requested capacity,
the leftovers are cleared (modelled from the spec: `ClearRemaining` cleans
each leftover value before discarding it), and the shrink bookkeeping is
updated. -/
def performShrink {α : Type} (p : PoolState α) (newCapacity inUse : ℤ) (now : ℕ) :
    PoolState α :=
  let availableToKeep := newCapacity - inUse
  if availableToKeep ≤ 0 then p
  else
    let itemsToKeep := min availableToKeep (p.pool.items.length : ℤ)
    let kept := p.pool.items.take itemsToKeep.toNat
    let excess := p.pool.items.drop itemsToKeep.toNat
    { p with
      pool := { capacity := newCapacity.toNat, items := kept }
      cleaned := p.cleaned ++ excess
      stats := { p.stats with
        currentCapacity := u64ofInt newCapacity
        totalShrinkEvents := (p.stats.totalShrinkEvents + 1) % U64
        consecutiveShrinks := (p.stats.consecutiveShrinks + 1) % U64
        lastShrinkTime := now } }

/-- Embeds src/pool/helpers.go `shouldShrinkFastPath`. -/
def shouldShrinkFastPath (cfg : PoolConfig) (s : Stats) : Bool :=
  let sinceLast := (s.totalShrinkEvents + U64 - s.lastResizeAtShrinkNum) % U64
  decide (u64ofInt cfg.fastPath.shrinkEventsTrigger ≤ sinceLast)

/-- Embeds src/pool/helpers.go `adjustFastPathShrinkTarget`. -/
def adjustFastPathShrinkTarget (cfg : PoolConfig) (currentCap : ℕ) : ℤ :=
  let newCap := truncMulInt currentCap cfg.fastPath.shrink.shrinkPercent.oneMinus
  if newCap < cfg.fastPath.shrink.minCapacity then cfg.fastPath.shrink.minCapacity else newCap

/-- Embeds src/pool/helpers.go `shrinkFastPath`: replace L1 with a channel
of the requested capacity holding the first `min(newCapacity − inUse,
len(L1))` buffered items, and record the shrink number of this resize. -/
def shrinkFastPath {α : Type} (p : PoolState α) (newCapacity inUse : ℤ) : PoolState α :=
  let availableObjsToCopy := newCapacity - inUse
  if availableObjsToCopy ≤ 0 then p
  else
    let copyCount := min availableObjsToCopy (p.cacheL1.items.length : ℤ)
    { p with
      cacheL1 := { capacity := newCapacity.toNat, items := p.cacheL1.items.take copyCount.toNat }
      stats := { p.stats with lastResizeAtShrinkNum := p.stats.totalShrinkEvents } }

/-- Embeds src/pool/helpers.go `ShrinkExecution`: compute the reduced main
capacity, run the eligibility check, adjust the target, perform the main
shrink, and then run the fast-path shrink only when channel growth is
enabled and the fast-path trigger has been crossed. -/
def ShrinkExecution {α : Type} (cfg : PoolConfig) (p : PoolState α) (now : ℕ) : PoolState α :=
  let currentCap := p.stats.currentCapacity
  let inUse := intOfU64 p.stats.objectsInUse
  let newCapacity := truncMulInt currentCap cfg.shrink.shrinkPercent.oneMinus
  if ¬ shouldShrinkMainPool cfg p currentCap newCapacity then p
  else
    let adj := adjustMainShrinkTarget cfg p.isGrowthBlocked newCapacity inUse
    let p1 := performShrink { p with isGrowthBlocked := adj.2 } adj.1 inUse now
    if ¬ cfg.fastPath.enableChannelGrowth ∨ ¬ shouldShrinkFastPath cfg p1.stats then p1
    else
      let newCap2 := adjustFastPathShrinkTarget cfg p1.stats.currentL1Capacity
      shrinkFastPath p1 newCap2 inUse

/-- Embeds the `poolStats` struct of src/unnamed/part_001 (the stats
generation carrying the fast-return counters).  Go `int` fields are `ℤ`,
`uint64` fields are naturals below `U64`. -/
structure PoolStatsV2 where
  objectsCreated : ℤ
  objectsDestroyed : ℤ
  initialCapacity : ℤ
  currentCapacity : ℤ
  totalGets : ℕ
  totalGrowthEvents : ℤ
  fastReturnHit : ℕ
  fastReturnMiss : ℕ
  totalShrinkEvents : ℤ
  consecutiveShrinks : ℤ
  lastShrinkTime : ℕ
  lastL1ResizeAtGrowthNum : ℤ
  lastResizeAtShrinkNum : ℤ
  currentL1Capacity : ℤ
deriving DecidableEq, Repr

/-- Embeds the `PoolStatsSnapshot` struct of src/unnamed/part_001.  The two
`float64` rate fields are modelled as exact rationals. -/
structure PoolStatsSnapshot where
  initialCapacity : ℤ
  currentCapacity : ℤ
  objectsInUse : ℕ
  totalGets : ℕ
  totalGrowthEvents : ℤ
  objectsCreated : ℤ
  objectsDestroyed : ℤ
  fastReturnHit : ℕ
  fastReturnMiss : ℕ
  totalShrinkEvents : ℤ
  consecutiveShrinks : ℤ
  lastShrinkTime : ℕ
  lastL1ResizeAtGrowthNum : ℤ
  lastResizeAtShrinkNum : ℤ
  currentL1Capacity : ℤ
  availableObjects : ℤ
  ringBufferLength : ℕ
  l1Length : ℕ
  l2SpillRate : ℚ
  utilization : ℚ
deriving DecidableEq, Repr

/-- Embeds src/unnamed/part_001 `GetPoolStatsSnapshot`.  `l1Len` is the
buffered length of the L1 channel and `ringLen` the ring-buffer length at
snapshot time.  `uint64` subtraction wraps; the spill rate guards against
a zero denominator exactly as the source does. -/
def GetPoolStatsSnapshot (s : PoolStatsV2) (l1Len ringLen : ℕ) : PoolStatsSnapshot :=
  let fastReturnHit := s.fastReturnHit
  let fastReturnMiss := s.fastReturnMiss
  let totalReturns := (fastReturnHit + fastReturnMiss) % U64
  let l2SpillRate : ℚ :=
    if 0 < totalReturns then (fastReturnMiss : ℚ) / (totalReturns : ℚ) else 0
  let totalPuts := (s.fastReturnHit + s.fastReturnMiss) % U64
  let totalGets := s.totalGets
  let objectsInUse := (totalGets + (U64 - totalPuts)) % U64
  { initialCapacity := s.initialCapacity
    currentCapacity := s.currentCapacity
    objectsInUse := objectsInUse
    totalGets := totalGets
    totalGrowthEvents := s.totalGrowthEvents
    objectsCreated := s.objectsCreated
    objectsDestroyed := s.objectsDestroyed
    fastReturnHit := fastReturnHit
    fastReturnMiss := fastReturnMiss
    totalShrinkEvents := s.totalShrinkEvents
    consecutiveShrinks := s.consecutiveShrinks
    lastShrinkTime := s.lastShrinkTime
    lastL1ResizeAtGrowthNum := s.lastL1ResizeAtGrowthNum
    lastResizeAtShrinkNum := s.lastResizeAtShrinkNum
    currentL1Capacity := s.currentL1Capacity
    availableObjects := s.currentCapacity - intOfU64 objectsInUse
    ringBufferLength := ringLen
    l1Length := l1Len
    l2SpillRate := l2SpillRate
    utilization := (objectsInUse : ℚ) / ((s.currentCapacity : ℤ) : ℚ) }

/-- The four mismatch errors src/unnamed/part_001 `Validate` can report,
in source order. -/
inductive ValidateError
  | returnsMismatch
  | getsMismatch
  | inUseNotZero
  | availableMismatch
deriving DecidableEq, Repr

/-- Embeds src/unnamed/part_001 `Validate` on a snapshot; it only reads
the snapshot, so the snapshot is unchanged by construction. -/
def Validate (s : PoolStatsSnapshot) (reqNum : ℤ) : Option ValidateError :=
  let totalReturns := (s.fastReturnHit + s.fastReturnMiss) % U64
  if totalReturns ≠ s.totalGets then some .returnsMismatch
  else if s.totalGets ≠ u64ofInt reqNum then some .getsMismatch
  else if s.objectsInUse ≠ 0 then some .inUseNotZero
  else if s.availableObjects ≠ s.currentCapacity then some .availableMismatch
  else none

/-! Helper lemmas shared by several claim proofs. -/

lemma maxUint64_eq_max (a b : ℕ) : maxUint64 a b = max a b := by
  unfold maxUint64
  split <;> omega

lemma u64ofInt_eq_toNat {i : ℤ} (h0 : 0 ≤ i) (h1 : i < 2 ^ 64) : u64ofInt i = i.toNat := by
  unfold u64ofInt
  rw [Int.emod_eq_of_lt h0 (by exact_mod_cast h1)]

lemma intOfU64_eq {n : ℕ} (h : n < 2 ^ 63) : intOfU64 n = n := by
  unfold intOfU64
  rw [if_pos h]

lemma truncMulU64_eq_div (n : ℕ) (f : GoFloat) (h : 0 ≤ f.num) :
    truncMulU64 n f = n * f.num.toNat / f.den := by
  unfold truncMulU64 truncMulInt
  have h1 : (n : ℤ) * f.num = ((n * f.num.toNat : ℕ) : ℤ) := by
    push_cast [Int.toNat_of_nonneg h]
    ring
  rw [h1, Int.tdiv_eq_ediv (by positivity) (by positivity), ← Int.ofNat_ediv]
  exact Int.toNat_natCast _

/-! Concrete configurations and states used as witnesses and
counterexamples. -/

/-- Example growth parameters: threshold factor 2, growth percent 0.5,
fixed growth factor 1. -/
def exGrowth : GrowthParameters :=
  { exponentialThresholdFactor := ⟨2, 1⟩, growthPercent := ⟨1, 2⟩, fixedGrowthFactor := ⟨1, 1⟩ }

/-- Example shrink parameters: idle threshold 10, two idle rounds required,
shrink percent 0.5, minimum capacity 8. -/
def exShrink : ShrinkParameters :=
  { idleThreshold := 10, minIdleBeforeShrink := 2, shrinkPercent := ⟨1, 2⟩, minCapacity := 8 }

/-- Example fast-path parameters with a selectable channel-growth flag. -/
def exFastPath (flag : Bool) : FastPathParameters :=
  { enableChannelGrowth := flag
    growthEventsTrigger := 1
    shrinkEventsTrigger := 1
    growth := exGrowth
    shrink := { idleThreshold := 10, minIdleBeforeShrink := 2
                shrinkPercent := ⟨1, 2⟩, minCapacity := 1 } }

/-- Example configuration with a large hard limit. -/
def exCfg : PoolConfig :=
  { initialCapacity := 10, hardLimit := 100, allocAmount := 1
    growth := exGrowth, shrink := exShrink, fastPath := exFastPath false }

/-- Example configuration with hard limit 4, exponential threshold factor 1
and initial capacity 2 (so the threshold is 2). -/
def exCfgHL : PoolConfig :=
  { initialCapacity := 2, hardLimit := 4, allocAmount := 8
    growth := { exponentialThresholdFactor := ⟨1, 1⟩, growthPercent := ⟨1, 2⟩
                fixedGrowthFactor := ⟨1, 1⟩ }
    shrink := exShrink, fastPath := exFastPath false }

/-- Example statistics record. -/
def exStats : Stats :=
  { objectsInUse := 3, l1HitCount := 2, blockedGets := 1, totalGets := 5
    currentCapacity := 10, currentL1Capacity := 4, totalGrowthEvents := 0
    totalShrinkEvents := 0, consecutiveShrinks := 0, lastResizeAtGrowthNum := 0
    lastResizeAtShrinkNum := 0, lastShrinkTime := 0, lastGrowTime := 0 }

/-- Example pool state. -/
def exState : PoolState ℕ :=
  { cacheL1 := ⟨4, [1]⟩, pool := ⟨10, [2, 3]⟩, isGrowthBlocked := false
    cleaned := [], stats := exStats }

/-- State at the hard limit of `exCfgHL` (capacity 4). -/
def exStateAtHL : PoolState ℕ :=
  { cacheL1 := ⟨2, []⟩, pool := ⟨4, [1, 2, 3]⟩, isGrowthBlocked := false
    cleaned := [], stats := { exStats with objectsInUse := 1, currentCapacity := 4 } }

/-- State below the hard limit of `exCfgHL` (capacity 3). -/
def exStateBelowHL : PoolState ℕ :=
  { cacheL1 := ⟨2, []⟩, pool := ⟨4, [1, 2]⟩, isGrowthBlocked := false
    cleaned := [], stats := { exStats with objectsInUse := 1, currentCapacity := 3 } }

/-! Claim theorems. -/

/-- C1: with positive growth factors, the growth controller's new capacity
is `current + delta`, where `delta = max(1, floor(current *
controlled_growth_factor))` below the threshold (exponential mode) and
`delta = max(1, floor(current * big_growth_factor))` at or above it
(linear mode).  The floors are stated as exact integer division; the
linear fixed step comes from the spec-modelled caller `specFixedStep`. -/
theorem C1_new_capacity (currentCap threshold : ℕ) (cfg : GrowthParameters)
    (hg : cfg.growthPercent.pos) (hf : cfg.fixedGrowthFactor.pos)
    (h1 : currentCap + max 1 (currentCap * cfg.growthPercent.num.toNat / cfg.growthPercent.den)
      < U64)
    (h2 : currentCap
        + max 1 (currentCap * cfg.fixedGrowthFactor.num.toNat / cfg.fixedGrowthFactor.den)
      < U64) :
    (currentCap < threshold →
      calculateNewPoolCapacity currentCap threshold (specFixedStep currentCap cfg) cfg
        = currentCap
          + max 1 (currentCap * cfg.growthPercent.num.toNat / cfg.growthPercent.den))
    ∧ (threshold ≤ currentCap →
      calculateNewPoolCapacity currentCap threshold (specFixedStep currentCap cfg) cfg
        = currentCap
          + max 1 (currentCap * cfg.fixedGrowthFactor.num.toNat / cfg.fixedGrowthFactor.den)) := by
  constructor
  · intro hlt
    simp only [calculateNewPoolCapacity]
    rw [if_pos hlt, maxUint64_eq_max, truncMulU64_eq_div _ _ hg.1.le, Nat.max_comm]
    exact Nat.mod_eq_of_lt h1
  · intro hge
    simp only [calculateNewPoolCapacity, specFixedStep]
    rw [if_neg (not_lt.mpr hge), maxUint64_eq_max, truncMulU64_eq_div _ _ hf.1.le,
      Nat.max_comm]
    exact Nat.mod_eq_of_lt h2

/-- Witness for C1 at capacity 4 below threshold 8 and capacity 8 at the
threshold, with growth percent 1/2 and fixed factor 1. -/
theorem C1_witness :
    ((4 : ℕ) < 8
      ∧ calculateNewPoolCapacity 4 8 (specFixedStep 4 exGrowth) exGrowth
          = 4 + max 1 (4 * exGrowth.growthPercent.num.toNat / exGrowth.growthPercent.den))
    ∧ ((8 : ℕ) ≤ 8
      ∧ calculateNewPoolCapacity 8 8 (specFixedStep 8 exGrowth) exGrowth
          = 8 + max 1 (8 * exGrowth.fixedGrowthFactor.num.toNat / exGrowth.fixedGrowthFactor.den)) :=
  ⟨⟨by decide,
    (C1_new_capacity 4 8 exGrowth ⟨by decide, by decide⟩ ⟨by decide, by decide⟩
      (by decide) (by decide)).1 (by decide)⟩,
   ⟨by decide,
    (C1_new_capacity 8 8 exGrowth ⟨by decide, by decide⟩ ⟨by decide, by decide⟩
      (by decide) (by decide)).2 (by decide)⟩⟩

/-- C2: the growth controller fails exactly when the proposed new capacity
exceeds the hard limit while the current capacity is already at or above
it, and failure sets the growth-blocked latch; when the current capacity
is below the hard limit but the proposal exceeds it, the new capacity is
clamped to the hard limit and growth succeeds. -/
theorem C2_hard_limit {α : Type} (cfg : PoolConfig) (p : PoolState α) (now : ℕ) (newObj : α) :
    ((grow cfg p now newObj).1 = false ↔
      (u64ofInt cfg.hardLimit < growCandidateCapacity cfg p.stats.currentCapacity
        ∧ u64ofInt cfg.hardLimit ≤ p.stats.currentCapacity))
    ∧ ((grow cfg p now newObj).1 = false →
        (grow cfg p now newObj).2.isGrowthBlocked = true)
    ∧ ((p.stats.currentCapacity < u64ofInt cfg.hardLimit
          ∧ u64ofInt cfg.hardLimit < growCandidateCapacity cfg p.stats.currentCapacity) →
        (grow cfg p now newObj).1 = true
          ∧ (grow cfg p now newObj).2.stats.currentCapacity = u64ofInt cfg.hardLimit) := by
  by_cases hb :
      growthWouldExceedHardLimit cfg p.stats.currentCapacity
        (growCandidateCapacity cfg p.stats.currentCapacity) = true
  · have hb' : u64ofInt cfg.hardLimit < growCandidateCapacity cfg p.stats.currentCapacity
        ∧ u64ofInt cfg.hardLimit ≤ p.stats.currentCapacity := by
      rw [growthWouldExceedHardLimit] at hb
      simpa using hb
    refine ⟨?_, ?_, ?_⟩
    · simp [grow, hb, hb'.1, hb'.2]
    · intro _
      simp [grow, hb]
    · intro hc
      exact absurd hb'.2 (not_le.mpr hc.1)
  · have hb' : ¬ (u64ofInt cfg.hardLimit < growCandidateCapacity cfg p.stats.currentCapacity
        ∧ u64ofInt cfg.hardLimit ≤ p.stats.currentCapacity) := by
      intro hc
      apply hb
      rw [growthWouldExceedHardLimit]
      simpa using hc
    refine ⟨?_, ?_, ?_⟩
    · simp only [grow]
      rw [if_neg hb]
      simpa using hb'
    · simp only [grow]
      rw [if_neg hb]
      simp
    · intro hc
      have hn : needsToShrinkToHardLimit cfg p.stats.currentCapacity
          (growCandidateCapacity cfg p.stats.currentCapacity) = true := by
        rw [needsToShrinkToHardLimit]
        simpa using hc
      constructor
      · simp only [grow]
        rw [if_neg hb]
      · simp only [grow]
        rw [if_neg hb]
        simp [hn]

/-- Witness for C2: at `exCfgHL` (hard limit 4), growth from capacity 4
fails and latches the block, while growth from capacity 3 proposes 6 and
is clamped to 4. -/
theorem C2_witness :
    ((grow exCfgHL exStateAtHL 0 9).1 = false
      ∧ (grow exCfgHL exStateAtHL 0 9).2.isGrowthBlocked = true)
    ∧ ((grow exCfgHL exStateBelowHL 0 9).1 = true
      ∧ (grow exCfgHL exStateBelowHL 0 9).2.stats.currentCapacity = u64ofInt exCfgHL.hardLimit) :=
  ⟨⟨(C2_hard_limit exCfgHL exStateAtHL 0 9).1.mpr (by decide),
    (C2_hard_limit exCfgHL exStateAtHL 0 9).2.1
      ((C2_hard_limit exCfgHL exStateAtHL 0 9).1.mpr (by decide))⟩,
   (C2_hard_limit exCfgHL exStateBelowHL 0 9).2.2 (by decide)⟩

/-- C5 counterexample: with idle threshold 10 and
`min_idle_before_shrink = 2`, an idle tick starting from an idle-rounds
counter already at 2 advances it to 3 — the increment does not saturate
at the bound, contradicting the claim. -/
theorem C5_counterexample :
    exCfg.shrink.minIdleBeforeShrink = 2
    ∧ exCfg.shrink.idleThreshold ≤ 10
    ∧ (IndleCheck exCfg 10 2 false).idles = 3 := by
  decide

/-- C5 (amended): on an idle tick the counter is incremented without any
saturation bound, and the permission flag ends up true exactly when the
incremented counter has reached `min_idle_before_shrink` or the flag was
already true (it is sticky); on a non-idle tick the counter is
decremented with a floor at zero and the flag is unchanged. -/
theorem C5_idle_check (cfg : PoolConfig) (idleDuration : ℕ) (idles : ℤ) (perm : Bool)
    (h0 : 0 ≤ idles) :
    (cfg.shrink.idleThreshold ≤ idleDuration →
      (IndleCheck cfg idleDuration idles perm).idles = idles + 1
        ∧ ((IndleCheck cfg idleDuration idles perm).permission = true ↔
            (cfg.shrink.minIdleBeforeShrink ≤ idles + 1 ∨ perm = true)))
    ∧ (idleDuration < cfg.shrink.idleThreshold →
      (IndleCheck cfg idleDuration idles perm).idles = max (idles - 1) 0
        ∧ (IndleCheck cfg idleDuration idles perm).permission = perm) := by
  constructor
  · intro h
    constructor
    · simp [IndleCheck, h]
    · by_cases hr : cfg.shrink.minIdleBeforeShrink ≤ idles + 1
      · simp [IndleCheck, h, hr]
      · simp [IndleCheck, h, hr]
  · intro h
    have hn := not_le.mpr h
    constructor
    · rw [IndleCheck, if_neg hn]
      show (if 0 < idles then idles - 1 else idles) = max (idles - 1) 0
      split <;> omega
    · rw [IndleCheck, if_neg hn]

/-- Witness for C5 at `exCfg`: an idle tick from counter 1 reaches the
bound 2 and flips the permission on; a busy tick from counter 1 steps it
back to 0 and keeps the flag off. -/
theorem C5_witness :
    ((IndleCheck exCfg 12 1 false).idles = 1 + 1
      ∧ ((IndleCheck exCfg 12 1 false).permission = true ↔
          (exCfg.shrink.minIdleBeforeShrink ≤ 1 + 1 ∨ false = true)))
    ∧ ((IndleCheck exCfg 3 1 false).idles = max (1 - 1) 0
      ∧ (IndleCheck exCfg 3 1 false).permission = false) :=
  ⟨(C5_idle_check exCfg 12 1 false (by decide)).1 (by decide),
   (C5_idle_check exCfg 3 1 false (by decide)).2 (by decide)⟩

/-- C10: the guarded CAS decrements of `releaseObj`, `reduceL1Hit` and
`reduceBlockedGets` take a positive counter to its predecessor and leave
a zero counter at zero; and because every concurrent decrement
linearizes as one `casDecrement` step, any number of interleaved
decrements leaves the counter at `start - n`, never wrapping modulo
`2^64`. -/
theorem C10_guarded_decrements {α : Type} (p : PoolState α) (obj : α) :
    ((0 < p.stats.objectsInUse →
        (releaseObj p obj).stats.objectsInUse = p.stats.objectsInUse - 1)
      ∧ (p.stats.objectsInUse = 0 → (releaseObj p obj).stats.objectsInUse = 0))
    ∧ ((0 < p.stats.l1HitCount →
        (reduceL1Hit p).stats.l1HitCount = p.stats.l1HitCount - 1)
      ∧ (p.stats.l1HitCount = 0 → (reduceL1Hit p).stats.l1HitCount = 0))
    ∧ ((0 < p.stats.blockedGets →
        (reduceBlockedGets p).stats.blockedGets = p.stats.blockedGets - 1)
      ∧ (p.stats.blockedGets = 0 → (reduceBlockedGets p).stats.blockedGets = 0))
    ∧ (∀ n start : ℕ, start < U64 →
        casDecrement^[n] start = start - n ∧ casDecrement^[n] start < U64) := by
  have key : ∀ (m s : ℕ), casDecrement^[m] s = s - m := by
    intro m
    induction m with
    | zero => intro s; simp
    | succ k ih =>
      intro s
      rw [Function.iterate_succ_apply', ih]
      unfold casDecrement
      split <;> omega
  refine ⟨⟨?_, ?_⟩, ⟨?_, ?_⟩, ⟨?_, ?_⟩, ?_⟩
  · intro h
    simp [releaseObj, casDecrement, h.ne']
  · intro h
    simp [releaseObj, casDecrement, h]
  · intro h
    simp [reduceL1Hit, casDecrement, h.ne']
  · intro h
    simp [reduceL1Hit, casDecrement, h]
  · intro h
    simp [reduceBlockedGets, casDecrement, h.ne']
  · intro h
    simp [reduceBlockedGets, casDecrement, h]
  · intro n start h
    refine ⟨key n start, ?_⟩
    rw [key]
    omega

/-- Witness for C10 at `exState` (counters 3, 2, 1) and five interleaved
decrements of a counter that starts at 3. -/
theorem C10_witness :
    0 < exState.stats.objectsInUse
    ∧ (releaseObj exState 7).stats.objectsInUse = exState.stats.objectsInUse - 1
    ∧ (reduceL1Hit exState).stats.l1HitCount = exState.stats.l1HitCount - 1
    ∧ casDecrement^[5] 3 = 3 - 5 :=
  ⟨by decide,
   (C10_guarded_decrements exState 7).1.1 (by decide),
   (C10_guarded_decrements exState 7).2.1.1 (by decide),
   ((C10_guarded_decrements exState 7).2.2.2 5 3 (by decide)).1⟩

/-- C4: with `keep = new_cap − in_use`, a shrink that reaches the
replacement step aborts (old L2 left in place) when `keep ≤ 0`; otherwise
exactly `min(keep, Ll2)` values are drained from the old L2 into a newly
constructed L2 of capacity `new_cap`, the excess values are cleaned and
discarded, and afterwards the capacity statistic equals `new_cap`, the
shrink-event and consecutive-shrink counters are incremented, and the
last-shrink time is set. -/
theorem C4_perform_shrink {α : Type} (p : PoolState α) (newCapacity inUse : ℤ) (now : ℕ)
    (hsh : p.stats.totalShrinkEvents + 1 < U64)
    (hcs : p.stats.consecutiveShrinks + 1 < U64)
    (hc0 : 0 ≤ newCapacity) (hc1 : newCapacity < 2 ^ 64) :
    (newCapacity - inUse ≤ 0 → performShrink p newCapacity inUse now = p)
    ∧ (0 < newCapacity - inUse →
        (performShrink p newCapacity inUse now).pool.items
            = p.pool.items.take (min (newCapacity - inUse) (p.pool.items.length : ℤ)).toNat
        ∧ (performShrink p newCapacity inUse now).pool.capacity = newCapacity.toNat
        ∧ (performShrink p newCapacity inUse now).cleaned
            = p.cleaned
              ++ p.pool.items.drop (min (newCapacity - inUse) (p.pool.items.length : ℤ)).toNat
        ∧ (performShrink p newCapacity inUse now).stats.currentCapacity = newCapacity.toNat
        ∧ (performShrink p newCapacity inUse now).stats.totalShrinkEvents
            = p.stats.totalShrinkEvents + 1
        ∧ (performShrink p newCapacity inUse now).stats.consecutiveShrinks
            = p.stats.consecutiveShrinks + 1
        ∧ (performShrink p newCapacity inUse now).stats.lastShrinkTime = now) := by
  constructor
  · intro h
    simp only [performShrink]
    rw [if_pos h]
  · intro h
    simp only [performShrink]
    rw [if_neg (not_le.mpr h)]
    refine ⟨rfl, rfl, rfl, u64ofInt_eq_toNat hc0 hc1, Nat.mod_eq_of_lt hsh,
      Nat.mod_eq_of_lt hcs, rfl⟩

/-- Witness for C4 at `exState` (L2 holds [2, 3]) with target capacity 4
and 3 objects in use: one value is kept, one is cleaned and discarded. -/
theorem C4_witness :
    (0 : ℤ) < 4 - 3
    ∧ ((performShrink exState 4 3 0).pool.items
          = exState.pool.items.take (min ((4 : ℤ) - 3) (exState.pool.items.length : ℤ)).toNat
      ∧ (performShrink exState 4 3 0).pool.capacity = (4 : ℤ).toNat
      ∧ (performShrink exState 4 3 0).cleaned
          = exState.cleaned
            ++ exState.pool.items.drop (min ((4 : ℤ) - 3) (exState.pool.items.length : ℤ)).toNat
      ∧ (performShrink exState 4 3 0).stats.currentCapacity = (4 : ℤ).toNat
      ∧ (performShrink exState 4 3 0).stats.totalShrinkEvents
          = exState.stats.totalShrinkEvents + 1
      ∧ (performShrink exState 4 3 0).stats.consecutiveShrinks
          = exState.stats.consecutiveShrinks + 1
      ∧ (performShrink exState 4 3 0).stats.lastShrinkTime = 0) :=
  ⟨by decide,
   (C4_perform_shrink exState 4 3 0 (by decide) (by decide) (by decide) (by decide)).2
     (by decide)⟩

/-- Example stats record for the snapshot claims: capacity 10, 4 gets,
1 fast-return hit and 1 miss (so 2 objects in use). -/
def exStatsV2 : PoolStatsV2 :=
  { objectsCreated := 0, objectsDestroyed := 0, initialCapacity := 2, currentCapacity := 10
    totalGets := 4, totalGrowthEvents := 0, fastReturnHit := 1, fastReturnMiss := 1
    totalShrinkEvents := 0, consecutiveShrinks := 0, lastShrinkTime := 0
    lastL1ResizeAtGrowthNum := 0, lastResizeAtShrinkNum := 0, currentL1Capacity := 4 }

/-- C7 counterexample: at snapshot time the L1 length is 1 and the ring
length 2, yet `available_objects` is reported as 8 (current capacity minus
objects in use), not `Ll1 + Ll2 = 3` as the claim states. -/
theorem C7_counterexample :
    (GetPoolStatsSnapshot exStatsV2 1 2).l1Length = 1
    ∧ (GetPoolStatsSnapshot exStatsV2 1 2).ringBufferLength = 2
    ∧ (GetPoolStatsSnapshot exStatsV2 1 2).availableObjects = 8
    ∧ (GetPoolStatsSnapshot exStatsV2 1 2).availableObjects
        ≠ ((GetPoolStatsSnapshot exStatsV2 1 2).l1Length : ℤ)
          + ((GetPoolStatsSnapshot exStatsV2 1 2).ringBufferLength : ℤ) := by
  decide

/-- C7 (amended): the snapshot's `available_objects` equals the current
capacity minus the objects in use (where in-use is `total_gets` minus the
completed returns), not the sum of the tier lengths; its `l2_spill_rate`
equals `fast_return_miss / (fast_return_hit + fast_return_miss)` whenever
at least one return has occurred. -/
theorem C7_snapshot (s : PoolStatsV2) (l1Len ringLen : ℕ)
    (hmono : s.fastReturnHit + s.fastReturnMiss ≤ s.totalGets)
    (hg : s.totalGets < U64)
    (hsmall : s.totalGets - (s.fastReturnHit + s.fastReturnMiss) < 2 ^ 63) :
    (GetPoolStatsSnapshot s l1Len ringLen).availableObjects
        = s.currentCapacity
          - ((s.totalGets - (s.fastReturnHit + s.fastReturnMiss) : ℕ) : ℤ)
    ∧ (0 < s.fastReturnHit + s.fastReturnMiss →
        (GetPoolStatsSnapshot s l1Len ringLen).l2SpillRate
          = (s.fastReturnMiss : ℚ) / ((s.fastReturnHit + s.fastReturnMiss : ℕ) : ℚ)) := by
  have hputs : (s.fastReturnHit + s.fastReturnMiss) % U64
      = s.fastReturnHit + s.fastReturnMiss :=
    Nat.mod_eq_of_lt (lt_of_le_of_lt hmono hg)
  have hin : (s.totalGets + (U64 - (s.fastReturnHit + s.fastReturnMiss))) % U64
      = s.totalGets - (s.fastReturnHit + s.fastReturnMiss) := by
    have hU : s.fastReturnHit + s.fastReturnMiss ≤ U64 := le_of_lt (lt_of_le_of_lt hmono hg)
    have h1 : s.totalGets + (U64 - (s.fastReturnHit + s.fastReturnMiss))
        = U64 + (s.totalGets - (s.fastReturnHit + s.fastReturnMiss)) := by omega
    rw [h1, Nat.add_mod_left]
    exact Nat.mod_eq_of_lt (by omega)
  constructor
  · simp only [GetPoolStatsSnapshot]
    rw [hputs, hin, intOfU64_eq hsmall]
  · intro hpos
    simp only [GetPoolStatsSnapshot]
    rw [hputs, if_pos hpos]

/-- Witness for C7 at `exStatsV2`: capacity 10, 2 objects in use, so the
snapshot reports 8 available, and the spill rate is 1/2. -/
theorem C7_witness :
    exStatsV2.fastReturnHit + exStatsV2.fastReturnMiss ≤ exStatsV2.totalGets
    ∧ ((GetPoolStatsSnapshot exStatsV2 1 2).availableObjects
        = exStatsV2.currentCapacity
          - ((exStatsV2.totalGets - (exStatsV2.fastReturnHit + exStatsV2.fastReturnMiss) : ℕ) : ℤ)
      ∧ (0 < exStatsV2.fastReturnHit + exStatsV2.fastReturnMiss →
          (GetPoolStatsSnapshot exStatsV2 1 2).l2SpillRate
            = (exStatsV2.fastReturnMiss : ℚ)
              / ((exStatsV2.fastReturnHit + exStatsV2.fastReturnMiss : ℕ) : ℚ))) :=
  ⟨by decide, C7_snapshot exStatsV2 1 2 (by decide) (by decide) (by decide)⟩

/-- C8: `Validate(expected_requests)` accepts (returns no error) exactly
when the completed returns equal `total_gets`, `total_gets` equals the
expected request count, no objects are in use, and the available objects
equal the current capacity; it only reads the snapshot, so the snapshot
is unchanged by construction. -/
theorem C8_validate (s : PoolStatsSnapshot) (reqNum : ℤ)
    (hr0 : 0 ≤ reqNum) (hr1 : reqNum < 2 ^ 64)
    (hh : s.fastReturnHit + s.fastReturnMiss < U64) :
    Validate s reqNum = none ↔
      (s.fastReturnHit + s.fastReturnMiss = s.totalGets
        ∧ (s.totalGets : ℤ) = reqNum
        ∧ s.objectsInUse = 0
        ∧ s.availableObjects = s.currentCapacity) := by
  have hputs : (s.fastReturnHit + s.fastReturnMiss) % U64
      = s.fastReturnHit + s.fastReturnMiss := Nat.mod_eq_of_lt hh
  have hreq : u64ofInt reqNum = reqNum.toNat := u64ofInt_eq_toNat hr0 hr1
  simp only [Validate, hputs, hreq]
  split_ifs with h1 h2 h3 h4
  · exact iff_of_false (by simp) (fun hc => h1 hc.1)
  · exact iff_of_false (by simp) (fun hc => h2 (by omega))
  · exact iff_of_false (by simp) (fun hc => h3 hc.2.2.1)
  · exact iff_of_false (by simp) (fun hc => h4 hc.2.2.2)
  · exact iff_of_true rfl ⟨not_ne_iff.mp h1, by omega, not_ne_iff.mp h3, not_ne_iff.mp h4⟩

/-- Quiescent snapshot accepted by `Validate`: 3 gets, 2 hits + 1 miss,
nothing in use, 5 available = capacity 5. -/
def exSnap : PoolStatsSnapshot :=
  { initialCapacity := 2, currentCapacity := 5, objectsInUse := 0, totalGets := 3
    totalGrowthEvents := 0, objectsCreated := 0, objectsDestroyed := 0
    fastReturnHit := 2, fastReturnMiss := 1, totalShrinkEvents := 0, consecutiveShrinks := 0
    lastShrinkTime := 0, lastL1ResizeAtGrowthNum := 0, lastResizeAtShrinkNum := 0
    currentL1Capacity := 4, availableObjects := 5, ringBufferLength := 3, l1Length := 2
    l2SpillRate := 0, utilization := 0 }

/-- Witness for C8: the quiescent snapshot `exSnap` passes validation for
3 expected requests. -/
theorem C8_witness : Validate exSnap 3 = none :=
  (C8_validate exSnap 3 (by decide) (by decide) (by decide)).mpr
    ⟨by decide, by decide, by decide, by decide⟩

/-! Machinery for the shrink-execution claim. -/

lemma shouldShrinkMainPool_eq_false {α : Type} (cfg : PoolConfig) (p : PoolState α)
    (currentCap : ℕ) (newCap : ℤ) :
    shouldShrinkMainPool cfg p currentCap newCap = false ↔
      (newCap = 0 ∨ currentCap ≤ u64ofInt cfg.shrink.minCapacity
        ∨ intOfU64 currentCap ≤ newCap
        ∨ p.pool.items.length + p.cacheL1.items.length = 0) := by
  unfold shouldShrinkMainPool
  split_ifs with h1 h2 h3 h4 <;> simp_all

lemma shrinkFastPath_preserves {α : Type} (p : PoolState α) (nc iu : ℤ) :
    (shrinkFastPath p nc iu).pool = p.pool
    ∧ (shrinkFastPath p nc iu).cleaned = p.cleaned
    ∧ (shrinkFastPath p nc iu).stats.currentCapacity = p.stats.currentCapacity
    ∧ (shrinkFastPath p nc iu).stats.totalShrinkEvents = p.stats.totalShrinkEvents := by
  simp only [shrinkFastPath]
  split
  · exact ⟨rfl, rfl, rfl, rfl⟩
  · exact ⟨rfl, rfl, rfl, rfl⟩

/-- When the eligibility check passes, the observable main-pool fields of
`ShrinkExecution` agree with those of the inner `performShrink` call
(the optional fast-path shrink afterwards does not touch them). -/
lemma shrinkExecution_main_fields {α : Type} (cfg : PoolConfig) (p : PoolState α) (now : ℕ)
    (hb : shouldShrinkMainPool cfg p p.stats.currentCapacity
        (truncMulInt p.stats.currentCapacity cfg.shrink.shrinkPercent.oneMinus) = true) :
    (ShrinkExecution cfg p now).pool
        = (performShrink
            { p with isGrowthBlocked :=
                (adjustMainShrinkTarget cfg p.isGrowthBlocked
                  (truncMulInt p.stats.currentCapacity cfg.shrink.shrinkPercent.oneMinus)
                  (intOfU64 p.stats.objectsInUse)).2 }
            (adjustMainShrinkTarget cfg p.isGrowthBlocked
              (truncMulInt p.stats.currentCapacity cfg.shrink.shrinkPercent.oneMinus)
              (intOfU64 p.stats.objectsInUse)).1
            (intOfU64 p.stats.objectsInUse) now).pool
    ∧ (ShrinkExecution cfg p now).cleaned
        = (performShrink
            { p with isGrowthBlocked :=
                (adjustMainShrinkTarget cfg p.isGrowthBlocked
                  (truncMulInt p.stats.currentCapacity cfg.shrink.shrinkPercent.oneMinus)
                  (intOfU64 p.stats.objectsInUse)).2 }
            (adjustMainShrinkTarget cfg p.isGrowthBlocked
              (truncMulInt p.stats.currentCapacity cfg.shrink.shrinkPercent.oneMinus)
              (intOfU64 p.stats.objectsInUse)).1
            (intOfU64 p.stats.objectsInUse) now).cleaned
    ∧ (ShrinkExecution cfg p now).stats.currentCapacity
        = (performShrink
            { p with isGrowthBlocked :=
                (adjustMainShrinkTarget cfg p.isGrowthBlocked
                  (truncMulInt p.stats.currentCapacity cfg.shrink.shrinkPercent.oneMinus)
                  (intOfU64 p.stats.objectsInUse)).2 }
            (adjustMainShrinkTarget cfg p.isGrowthBlocked
              (truncMulInt p.stats.currentCapacity cfg.shrink.shrinkPercent.oneMinus)
              (intOfU64 p.stats.objectsInUse)).1
            (intOfU64 p.stats.objectsInUse) now).stats.currentCapacity
    ∧ (ShrinkExecution cfg p now).stats.totalShrinkEvents
        = (performShrink
            { p with isGrowthBlocked :=
                (adjustMainShrinkTarget cfg p.isGrowthBlocked
                  (truncMulInt p.stats.currentCapacity cfg.shrink.shrinkPercent.oneMinus)
                  (intOfU64 p.stats.objectsInUse)).2 }
            (adjustMainShrinkTarget cfg p.isGrowthBlocked
              (truncMulInt p.stats.currentCapacity cfg.shrink.shrinkPercent.oneMinus)
              (intOfU64 p.stats.objectsInUse)).1
            (intOfU64 p.stats.objectsInUse) now).stats.totalShrinkEvents := by
  simp only [ShrinkExecution]
  rw [if_neg (by simp [hb])]
  split
  · exact ⟨rfl, rfl, rfl, rfl⟩
  · exact (shrinkFastPath_preserves _ _ _)

/-- State with both tiers empty: capacity 10, nothing in use and nothing
buffered (used by the shrink counterexample). -/
def exStateEmptyTiers : PoolState ℕ :=
  { cacheL1 := ⟨4, []⟩, pool := ⟨10, []⟩, isGrowthBlocked := false
    cleaned := [], stats := { exStats with objectsInUse := 0, currentCapacity := 10 } }

/-- C3 counterexample: with capacity 10, minimum 8, shrink percent 1/2,
nothing in use and both tiers empty, the requested capacity 5 is nonzero,
10 is above the minimum, 5 < 10, and the clamp gives 8 ≤ 10 with room for
8 available objects — none of the claim's abort conditions holds — yet
`ShrinkExecution` leaves the pool unchanged: the code's additional guard
aborts whenever `Ll1 + Ll2 = 0`. -/
theorem C3_counterexample :
    truncMulInt exStateEmptyTiers.stats.currentCapacity exCfg.shrink.shrinkPercent.oneMinus = 5
    ∧ (5 : ℤ) ≠ 0
    ∧ ¬ ((exStateEmptyTiers.stats.currentCapacity : ℤ) ≤ exCfg.shrink.minCapacity)
    ∧ ¬ ((exStateEmptyTiers.stats.currentCapacity : ℤ) ≤ (5 : ℤ))
    ∧ max (max (5 : ℤ) exCfg.shrink.minCapacity) (exStateEmptyTiers.stats.objectsInUse : ℤ) = 8
    ∧ ((8 : ℤ) ≤ (exStateEmptyTiers.stats.currentCapacity : ℤ))
    ∧ (0 : ℤ) < 8 - (exStateEmptyTiers.stats.objectsInUse : ℤ)
    ∧ ShrinkExecution exCfg exStateEmptyTiers 0 = exStateEmptyTiers := by
  decide

/-- C3 (amended): the shrink aborts, leaving the pool unchanged, when the
requested capacity is zero, the current capacity is at or below the
minimum, the request is not a reduction, **or both tiers are empty**;
otherwise the target is clamped to `max(new_cap, min_capacity, in_use)`
(the adjustment step computes exactly that maximum), and if the clamp
raises the target above the current capacity the shrink also aborts,
leaving the ring buffer, the cleaned list and the capacity statistics
untouched (the raise forces the clamped target to equal the in-use
count, so `performShrink` finds no room and returns; the growth-blocked
latch and the optional fast-path resize are outside this abort). -/
theorem C3_shrink_execution {α : Type} (cfg : PoolConfig) (p : PoolState α) (now : ℕ)
    (hcap : p.stats.currentCapacity < 2 ^ 63)
    (hinuse : p.stats.objectsInUse < 2 ^ 63)
    (hmin0 : 0 ≤ cfg.shrink.minCapacity) (hmin1 : cfg.shrink.minCapacity < 2 ^ 63) :
    ((truncMulInt p.stats.currentCapacity cfg.shrink.shrinkPercent.oneMinus = 0
        ∨ (p.stats.currentCapacity : ℤ) ≤ cfg.shrink.minCapacity
        ∨ (p.stats.currentCapacity : ℤ)
            ≤ truncMulInt p.stats.currentCapacity cfg.shrink.shrinkPercent.oneMinus
        ∨ p.pool.items.length + p.cacheL1.items.length = 0) →
      ShrinkExecution cfg p now = p)
    ∧ (∀ (b : Bool) (nc iu : ℤ),
        (adjustMainShrinkTarget cfg b nc iu).1 = max (max nc cfg.shrink.minCapacity) iu)
    ∧ (¬ (truncMulInt p.stats.currentCapacity cfg.shrink.shrinkPercent.oneMinus = 0
        ∨ (p.stats.currentCapacity : ℤ) ≤ cfg.shrink.minCapacity
        ∨ (p.stats.currentCapacity : ℤ)
            ≤ truncMulInt p.stats.currentCapacity cfg.shrink.shrinkPercent.oneMinus
        ∨ p.pool.items.length + p.cacheL1.items.length = 0) →
      ((p.stats.currentCapacity : ℤ)
          < max (max (truncMulInt p.stats.currentCapacity cfg.shrink.shrinkPercent.oneMinus)
              cfg.shrink.minCapacity) (p.stats.objectsInUse : ℤ) →
        (ShrinkExecution cfg p now).pool = p.pool
        ∧ (ShrinkExecution cfg p now).cleaned = p.cleaned
        ∧ (ShrinkExecution cfg p now).stats.currentCapacity = p.stats.currentCapacity
        ∧ (ShrinkExecution cfg p now).stats.totalShrinkEvents = p.stats.totalShrinkEvents)) := by
  have hiu : intOfU64 p.stats.objectsInUse = (p.stats.objectsInUse : ℤ) := intOfU64_eq hinuse
  have hcur : intOfU64 p.stats.currentCapacity = (p.stats.currentCapacity : ℤ) :=
    intOfU64_eq hcap
  have hminu : u64ofInt cfg.shrink.minCapacity = cfg.shrink.minCapacity.toNat :=
    u64ofInt_eq_toNat hmin0 (by omega)
  have hadj : ∀ (b : Bool) (nc iu : ℤ),
      (adjustMainShrinkTarget cfg b nc iu).1 = max (max nc cfg.shrink.minCapacity) iu := by
    intro b nc iu
    simp only [adjustMainShrinkTarget]
    split_ifs <;> omega
  have habort : shouldShrinkMainPool cfg p p.stats.currentCapacity
      (truncMulInt p.stats.currentCapacity cfg.shrink.shrinkPercent.oneMinus) = false ↔
      (truncMulInt p.stats.currentCapacity cfg.shrink.shrinkPercent.oneMinus = 0
        ∨ (p.stats.currentCapacity : ℤ) ≤ cfg.shrink.minCapacity
        ∨ (p.stats.currentCapacity : ℤ)
            ≤ truncMulInt p.stats.currentCapacity cfg.shrink.shrinkPercent.oneMinus
        ∨ p.pool.items.length + p.cacheL1.items.length = 0) := by
    rw [shouldShrinkMainPool_eq_false, hcur, hminu]
    omega
  refine ⟨?_, hadj, ?_⟩
  · intro h
    simp only [ShrinkExecution]
    rw [if_pos (by simp [habort.mpr h])]
  · intro h
    have hb : shouldShrinkMainPool cfg p p.stats.currentCapacity
        (truncMulInt p.stats.currentCapacity cfg.shrink.shrinkPercent.oneMinus) = true := by
      rcases Bool.eq_false_or_eq_true
        (shouldShrinkMainPool cfg p p.stats.currentCapacity
          (truncMulInt p.stats.currentCapacity cfg.shrink.shrinkPercent.oneMinus)) with hf | ht
      · exact hf
      · exact absurd (habort.mp ht) h
    obtain ⟨hpool, hclean, hcapf, hev⟩ := shrinkExecution_main_fields cfg p now hb
    rw [hadj, hiu] at hpool hclean hcapf hev
    push_neg at h
    obtain ⟨hnc0, hncmin, hncred, hlen⟩ := h
    intro hraise
    have hle : max (max (truncMulInt p.stats.currentCapacity cfg.shrink.shrinkPercent.oneMinus)
        cfg.shrink.minCapacity) (p.stats.objectsInUse : ℤ) - (p.stats.objectsInUse : ℤ) ≤ 0 := by
      omega
    rw [hpool, hclean, hcapf, hev]
    simp only [performShrink]
    rw [if_pos hle]
    exact ⟨rfl, rfl, rfl, rfl⟩

/-- Over-committed state: 12 objects in use against capacity 10, one value
still buffered (used by the C3 witness: the clamp raises the target to 12,
above the current capacity, and the shrink aborts). -/
def exStateOverCommit : PoolState ℕ :=
  { cacheL1 := ⟨4, []⟩, pool := ⟨10, [1]⟩, isGrowthBlocked := false
    cleaned := [], stats := { exStats with objectsInUse := 12, currentCapacity := 10 } }

/-- Witness for C3 at `exCfg` and `exStateOverCommit`: none of the abort
guards fires, the clamp raises the target from 5 to 12 > 10, and the
shrink aborts leaving the main pool untouched. -/
theorem C3_witness :
    (¬ (truncMulInt exStateOverCommit.stats.currentCapacity
          exCfg.shrink.shrinkPercent.oneMinus = 0
        ∨ (exStateOverCommit.stats.currentCapacity : ℤ) ≤ exCfg.shrink.minCapacity
        ∨ (exStateOverCommit.stats.currentCapacity : ℤ)
            ≤ truncMulInt exStateOverCommit.stats.currentCapacity
                exCfg.shrink.shrinkPercent.oneMinus
        ∨ exStateOverCommit.pool.items.length + exStateOverCommit.cacheL1.items.length = 0))
    ∧ ((exStateOverCommit.stats.currentCapacity : ℤ)
        < max (max (truncMulInt exStateOverCommit.stats.currentCapacity
            exCfg.shrink.shrinkPercent.oneMinus) exCfg.shrink.minCapacity)
            (exStateOverCommit.stats.objectsInUse : ℤ))
    ∧ ((ShrinkExecution exCfg exStateOverCommit 0).pool = exStateOverCommit.pool
      ∧ (ShrinkExecution exCfg exStateOverCommit 0).cleaned = exStateOverCommit.cleaned
      ∧ (ShrinkExecution exCfg exStateOverCommit 0).stats.currentCapacity
          = exStateOverCommit.stats.currentCapacity
      ∧ (ShrinkExecution exCfg exStateOverCommit 0).stats.totalShrinkEvents
          = exStateOverCommit.stats.totalShrinkEvents) :=
  ⟨by decide, by decide,
   (C3_shrink_execution exCfg exStateOverCommit 0 (by decide) (by decide) (by decide)
      (by decide)).2.2 (by decide) (by decide)⟩

/-! Machinery for the channel-growth and refill claims. -/

lemma performShrink_preserves_l1 {α : Type} (p : PoolState α) (nc iu : ℤ) (now : ℕ) :
    (performShrink p nc iu now).cacheL1 = p.cacheL1
    ∧ (performShrink p nc iu now).stats.currentL1Capacity = p.stats.currentL1Capacity := by
  simp only [performShrink]
  split
  · exact ⟨rfl, rfl⟩
  · exact ⟨rfl, rfl⟩

lemma grow_preserves_l1 {α : Type} (cfg : PoolConfig) (p : PoolState α) (now : ℕ) (obj : α) :
    (grow cfg p now obj).2.cacheL1 = p.cacheL1 := by
  simp only [grow]
  split
  · rfl
  · rfl

lemma sendAll_capacities {α : Type} (items : List α) (l1 : Channel α) (l2 : RingBuffer α) :
    (sendAll l1 l2 items).l1.capacity = l1.capacity
    ∧ (sendAll l1 l2 items).l2.capacity = l2.capacity := by
  induction items generalizing l1 l2 with
  | nil => exact ⟨rfl, rfl⟩
  | cons x rest ih =>
    simp only [sendAll]
    split
    · exact ⟨(ih _ _).1, (ih _ _).2⟩
    · refine ⟨(ih _ _).1, ?_⟩
      rw [(ih _ _).2]
      simp only [ringWrite]
      split
      · rfl
      · rfl

lemma refillMove_l1_capacity {α : Type} (p : PoolState α) (ft : ℤ) (gn : Bool) :
    (refillMove p ft gn).2.cacheL1.capacity = p.cacheL1.capacity := by
  simp only [refillMove]
  split
  · rfl
  · exact (sendAll_capacities _ _ _).1

/-- Small state with capacity 2 and room to grow under `exCfg`. -/
def exStateSmall : PoolState ℕ :=
  { cacheL1 := ⟨4, []⟩, pool := ⟨2, [1]⟩, isGrowthBlocked := false
    cleaned := [], stats := { exStats with objectsInUse := 1, currentCapacity := 2 } }

/-- C9: with `enable_channel_growth = false`, neither the growth-coupled L1
resize nor the shrink-coupled L1 resize ever changes the L1 channel or its
capacity statistic, and the remaining operations (`refill`, `grow`) never
alter the L1 capacity either; meanwhile L2 capacity can still grow: under
the concrete flag-off configuration `exCfg`, growth from capacity 2
succeeds and raises the capacity. -/
theorem C9_channel_growth_disabled (cfg : PoolConfig) (now : ℕ)
    (hflag : cfg.fastPath.enableChannelGrowth = false) :
    (∀ p : PoolState ℕ, tryL1ResizeIfTriggered cfg p = p)
    ∧ (∀ p : PoolState ℕ,
        (ShrinkExecution cfg p now).cacheL1 = p.cacheL1
        ∧ (ShrinkExecution cfg p now).stats.currentL1Capacity = p.stats.currentL1Capacity)
    ∧ (∀ (p : PoolState ℕ) (fillTarget : ℤ) (obj : ℕ),
        (refill cfg p fillTarget now obj).2.cacheL1.capacity = p.cacheL1.capacity)
    ∧ (∀ (p : PoolState ℕ) (obj : ℕ), (grow cfg p now obj).2.cacheL1 = p.cacheL1)
    ∧ (exCfg.fastPath.enableChannelGrowth = false
        ∧ (grow exCfg exStateSmall 0 0).1 = true
        ∧ exStateSmall.stats.currentCapacity
            < (grow exCfg exStateSmall 0 0).2.stats.currentCapacity) := by
  refine ⟨?_, ?_, ?_, ?_, by decide, by decide, by decide⟩
  · intro p
    simp only [tryL1ResizeIfTriggered]
    rw [if_pos (by simp [hflag])]
  · intro p
    simp only [ShrinkExecution]
    split
    · exact ⟨rfl, rfl⟩
    · rw [if_pos (Or.inl (by simp [hflag]))]
      exact ⟨(performShrink_preserves_l1 _ _ _ _).1, (performShrink_preserves_l1 _ _ _ _).2⟩
  · intro p fillTarget obj
    simp only [refill]
    split
    · split
      · rfl
      · have hl1 := grow_preserves_l1 cfg p now obj
        rcases hval : grow cfg p now obj with ⟨b, p'⟩
        rw [hval] at hl1
        cases b
        · exact congrArg Channel.capacity hl1
        · show (refillMove p' fillTarget true).2.cacheL1.capacity = p.cacheL1.capacity
          rw [refillMove_l1_capacity]
          exact congrArg Channel.capacity hl1
    · exact refillMove_l1_capacity _ _ _
  · intro p obj
    exact grow_preserves_l1 cfg p now obj

/-- Witness for C9 at `exCfg` (flag off) on `exState`. -/
theorem C9_witness :
    tryL1ResizeIfTriggered exCfg exState = exState
    ∧ (ShrinkExecution exCfg exState 0).cacheL1 = exState.cacheL1
    ∧ (grow exCfg exStateSmall 0 0).1 = true :=
  ⟨(C9_channel_growth_disabled exCfg 0 (by decide)).1 exState,
   ((C9_channel_growth_disabled exCfg 0 (by decide)).2.1 exState).1,
   (C9_channel_growth_disabled exCfg 0 (by decide)).2.2.2.2.2.1⟩

/-- Accounting of the refill send loop: the moved and failed tallies
partition the batch, L1 gains exactly the moved items, and L2 regains
exactly the failed ones (no write-back is dropped when the batch came out
of L2, because the freed slots provide room). -/
lemma sendAll_spec {α : Type} (items : List α) (l1 : Channel α) (l2 : RingBuffer α)
    (h : l2.items.length + items.length ≤ l2.capacity) :
    ((sendAll l1 l2 items).moved + (sendAll l1 l2 items).failed = items.length)
    ∧ ((sendAll l1 l2 items).l1.items.length = l1.items.length + (sendAll l1 l2 items).moved)
    ∧ ((sendAll l1 l2 items).l2.items.length = l2.items.length + (sendAll l1 l2 items).failed) := by
  induction items generalizing l1 l2 with
  | nil => simp [sendAll]
  | cons x rest ih =>
    simp only [List.length_cons] at h
    simp only [sendAll, List.length_cons]
    split
    · obtain ⟨h1, h2, h3⟩ := ih { l1 with items := l1.items ++ [x] } l2 (by omega)
      dsimp only
      simp only [List.length_append, List.length_cons, List.length_nil] at h2
      exact ⟨by omega, by omega, by omega⟩
    · have hroom : l2.items.length < l2.capacity := by omega
      have hcap : (ringWrite l2 x).capacity = l2.capacity := by
        simp [ringWrite, hroom]
      have hlen : (ringWrite l2 x).items.length = l2.items.length + 1 := by
        simp [ringWrite, hroom]
      obtain ⟨h1, h2, h3⟩ := ih l1 (ringWrite l2 x) (by omega)
      dsimp only
      exact ⟨by omega, by omega, by omega⟩

/-- Accounting of `refillMove`: exactly `min(fillTarget, Ll2)` items leave
L2, L1 gains the moved ones and L2 regains the failed ones. -/
lemma refillMove_spec {α : Type} (p : PoolState α) (ft : ℤ) (gn : Bool)
    (hwf : p.pool.items.length ≤ p.pool.capacity) (hft : 1 ≤ ft) :
    ((refillMove p ft gn).1.itemsMoved + (refillMove p ft gn).1.itemsFailed
        = min ft.toNat p.pool.items.length)
    ∧ ((refillMove p ft gn).2.cacheL1.items.length
        = p.cacheL1.items.length + (refillMove p ft gn).1.itemsMoved)
    ∧ ((refillMove p ft gn).2.pool.items.length
        = p.pool.items.length - min ft.toNat p.pool.items.length
          + (refillMove p ft gn).1.itemsFailed) := by
  by_cases hz : p.pool.items.length = 0
  · simp only [refillMove]
    rw [if_pos (by omega)]
    dsimp only
    omega
  · have htm : ¬ (min ft (p.pool.items.length : ℤ) ≤ 0) := by
      push_neg
      omega
    have htm2 : (min ft (p.pool.items.length : ℤ)).toNat = min ft.toNat p.pool.items.length := by
      omega
    simp only [refillMove]
    rw [if_neg htm]
    have hlentake :
        (p.pool.items.take (min ft (p.pool.items.length : ℤ)).toNat).length
          = min ft.toNat p.pool.items.length := by
      rw [List.length_take]
      omega
    have hlendrop :
        (p.pool.items.drop (min ft (p.pool.items.length : ℤ)).toNat).length
          = p.pool.items.length - min ft.toNat p.pool.items.length := by
      rw [List.length_drop]
      omega
    obtain ⟨h1, h2, h3⟩ := sendAll_spec
      (p.pool.items.take (min ft (p.pool.items.length : ℤ)).toNat) p.cacheL1
      { p.pool with items := p.pool.items.drop (min ft (p.pool.items.length : ℤ)).toNat }
      (by
        dsimp only
        omega)
    dsimp only at h1 h2 h3 ⊢
    exact ⟨by omega, by omega, by omega⟩

/-- Growth keeps the ring buffer within its (possibly enlarged) capacity.
Needed so that write-backs during a refill after growth cannot be
dropped. -/
lemma grow_wf {α : Type} (cfg : PoolConfig) (p : PoolState α) (now : ℕ) (obj : α)
    (h1 : p.pool.items.length ≤ p.pool.capacity)
    (h2 : p.pool.items.length ≤ p.stats.currentCapacity) :
    (grow cfg p now obj).2.pool.items.length ≤ (grow cfg p now obj).2.pool.capacity := by
  simp only [grow]
  split
  · exact h1
  · dsimp only
    rw [List.length_append, List.length_replicate]
    omega

/-- C6 counterexample: with L2 holding 3 values, a fill target of 5 and
growth unblocked, the claim mandates that min(5, 3) = 3 items be read and
sent toward L1; but growth fails at the hard limit and the refill returns
`GrowthFailed` having moved nothing. -/
theorem C6_counterexample :
    exStateAtHL.isGrowthBlocked = false
    ∧ exStateAtHL.pool.items.length = 3
    ∧ ((3 : ℤ) < 5)
    ∧ (refill exCfgHL exStateAtHL 5 0 9).1.reason = RefillReason.growthFailed
    ∧ (refill exCfgHL exStateAtHL 5 0 9).1.itemsMoved = 0
    ∧ (refill exCfgHL exStateAtHL 5 0 9).1.itemsFailed = 0
    ∧ (refill exCfgHL exStateAtHL 5 0 9).2.cacheL1.items = exStateAtHL.cacheL1.items := by
  decide

/-- C6 (amended): for a refill with a positive fill target, if L2 holds
fewer values than the target then growth runs first — when growth is
blocked the refill returns `GrowthBlocked` without moving anything, and
when growth fails it returns `GrowthFailed` without moving anything;
otherwise (growth succeeded, or L2 already held enough) exactly
`min(fill_target, Ll2)` items are read from L2 in a batch, L1 gains
exactly the successfully sent ones, and every item whose L1 send fails is
written back to L2 rather than dropped. -/
theorem C6_refill {α : Type} (cfg : PoolConfig) (p : PoolState α) (fillTarget : ℤ) (now : ℕ)
    (newObj : α)
    (hwf : p.pool.items.length ≤ p.pool.capacity)
    (hwf2 : p.pool.items.length ≤ p.stats.currentCapacity)
    (hft : 1 ≤ fillTarget) :
    (((p.pool.items.length : ℤ) < fillTarget ∧ p.isGrowthBlocked = true) →
      (refill cfg p fillTarget now newObj).1.reason = RefillReason.growthBlocked
      ∧ (refill cfg p fillTarget now newObj).1.growthBlockedFlag = true
      ∧ (refill cfg p fillTarget now newObj).1.itemsMoved = 0
      ∧ (refill cfg p fillTarget now newObj).2 = p)
    ∧ (((p.pool.items.length : ℤ) < fillTarget ∧ p.isGrowthBlocked = false
          ∧ (grow cfg p now newObj).1 = false) →
      (refill cfg p fillTarget now newObj).1.reason = RefillReason.growthFailed
      ∧ (refill cfg p fillTarget now newObj).1.itemsMoved = 0
      ∧ (refill cfg p fillTarget now newObj).1.itemsFailed = 0
      ∧ (refill cfg p fillTarget now newObj).2 = (grow cfg p now newObj).2)
    ∧ (((p.pool.items.length : ℤ) < fillTarget ∧ p.isGrowthBlocked = false
          ∧ (grow cfg p now newObj).1 = true) →
      (refill cfg p fillTarget now newObj).1.itemsMoved
          + (refill cfg p fillTarget now newObj).1.itemsFailed
        = min fillTarget.toNat (grow cfg p now newObj).2.pool.items.length
      ∧ (refill cfg p fillTarget now newObj).2.cacheL1.items.length
          = (grow cfg p now newObj).2.cacheL1.items.length
            + (refill cfg p fillTarget now newObj).1.itemsMoved
      ∧ (refill cfg p fillTarget now newObj).2.pool.items.length
          = (grow cfg p now newObj).2.pool.items.length
            - min fillTarget.toNat (grow cfg p now newObj).2.pool.items.length
            + (refill cfg p fillTarget now newObj).1.itemsFailed)
    ∧ ((fillTarget ≤ (p.pool.items.length : ℤ)) →
      (refill cfg p fillTarget now newObj).1.itemsMoved
          + (refill cfg p fillTarget now newObj).1.itemsFailed
        = min fillTarget.toNat p.pool.items.length
      ∧ (refill cfg p fillTarget now newObj).2.cacheL1.items.length
          = p.cacheL1.items.length + (refill cfg p fillTarget now newObj).1.itemsMoved
      ∧ (refill cfg p fillTarget now newObj).2.pool.items.length
          = p.pool.items.length - min fillTarget.toNat p.pool.items.length
            + (refill cfg p fillTarget now newObj).1.itemsFailed) := by
  refine ⟨?_, ?_, ?_, ?_⟩
  · rintro ⟨hlt, hbl⟩
    simp only [refill]
    rw [if_pos (Or.inr hlt), if_pos hbl]
    exact ⟨rfl, rfl, rfl, rfl⟩
  · rintro ⟨hlt, hbl, hgf⟩
    simp only [refill]
    rw [if_pos (Or.inr hlt), if_neg (by simp [hbl])]
    rcases hval : grow cfg p now newObj with ⟨b, p'⟩
    rw [hval] at hgf
    simp only at hgf
    subst hgf
    exact ⟨rfl, rfl, rfl, rfl⟩
  · rintro ⟨hlt, hbl, hgs⟩
    have hwf' := grow_wf cfg p now newObj hwf hwf2
    simp only [refill]
    rw [if_pos (Or.inr hlt), if_neg (by simp [hbl])]
    rcases hval : grow cfg p now newObj with ⟨b, p'⟩
    rw [hval] at hgs hwf'
    simp only at hgs hwf'
    subst hgs
    show (refillMove p' fillTarget true).1.itemsMoved
        + (refillMove p' fillTarget true).1.itemsFailed
      = min fillTarget.toNat p'.pool.items.length
      ∧ (refillMove p' fillTarget true).2.cacheL1.items.length
        = p'.cacheL1.items.length + (refillMove p' fillTarget true).1.itemsMoved
      ∧ (refillMove p' fillTarget true).2.pool.items.length
        = p'.pool.items.length - min fillTarget.toNat p'.pool.items.length
          + (refillMove p' fillTarget true).1.itemsFailed
    exact refillMove_spec p' fillTarget true hwf' hft
  · intro hge
    have h0 : p.pool.items.length ≠ 0 := by omega
    simp only [refill]
    rw [if_neg (by push_neg; exact ⟨h0, hge⟩)]
    exact refillMove_spec p fillTarget false hwf hft

/-- Witness for C6 at `exCfg` and `exState`: L2 holds [2, 3], the fill
target is 2 and L1 (capacity 4, one buffered item) has room, so both
items move and none fail. -/
theorem C6_witness :
    (2 : ℤ) ≤ (exState.pool.items.length : ℤ)
    ∧ ((refill exCfg exState 2 0 9).1.itemsMoved + (refill exCfg exState 2 0 9).1.itemsFailed
        = min (2 : ℤ).toNat exState.pool.items.length
      ∧ (refill exCfg exState 2 0 9).2.cacheL1.items.length
          = exState.cacheL1.items.length + (refill exCfg exState 2 0 9).1.itemsMoved
      ∧ (refill exCfg exState 2 0 9).2.pool.items.length
          = exState.pool.items.length - min (2 : ℤ).toNat exState.pool.items.length
            + (refill exCfg exState 2 0 9).1.itemsFailed) :=
  ⟨by decide,
   (C6_refill exCfg exState 2 0 9 (by decide) (by decide) (by decide)).2.2.2 (by decide)⟩

end PoolX
